import Mathlib

/-
Verification of the window-extraction and reprojection pipeline of
`src/aiocogeo/tiler.py` (the `COGTiler` and `CompositeTiler` classes).

Modelling conventions:
- Python ints are `ℤ`, Python floats are `ℚ`.
- A coordinate reference system is identified by its EPSG code, a `ℕ`.
  (The source compares an integer EPSG code against a CRS object; the
  library's CRS equality accepts an EPSG integer, so the comparison is
  EPSG equality.)
- The external raster source (`.cog`, imported from `aiocogeo.cog`, out of
  scope here), the geometry utilities (`rasterio.warp`) and the tiling
  scheme (`morecantile`) are collaborators.  Value-producing external
  utilities (`transform_bounds`, `zoom_for_pixelsize`) are fields of an
  explicit environment `Geo`; array-producing external calls (`read`,
  `reproject`, `astype`) are recorded syntactically in the inductive `Arr`,
  so that what the tiler requests from its collaborators - which bounds,
  which shape, which resampling method, which transforms - is directly
  observable and decidable.
- `rasterio.transform.from_bounds` has a known closed form and is defined
  concretely.
-/

namespace Aiocogeo

/-- A bounding box (west, south, east, north), Python tuple indices 0..3. -/
structure Bounds where
  left : ℚ
  bottom : ℚ
  right : ℚ
  top : ℚ
  deriving DecidableEq, Repr

/-- A bounding box is valid when min_x ≤ max_x and min_y ≤ max_y. -/
def Bounds.valid (b : Bounds) : Prop :=
  b.left ≤ b.right ∧ b.bottom ≤ b.top

instance (b : Bounds) : Decidable (Bounds.valid b) := by
  unfold Bounds.valid
  exact instDecidableAnd

/-- An affine transform (a, b, c, d, e, f): x = a*col + b*row + c,
y = d*col + e*row + f.  Indexing `transform[0] = a`, `transform[4] = e`. -/
structure Affine where
  a : ℚ
  b : ℚ
  c : ℚ
  d : ℚ
  e : ℚ
  f : ℚ
  deriving DecidableEq, Repr

/-- rasterio.transform.from_bounds(west, south, east, north, width, height):
Affine((east-west)/width, 0, west, 0, (south-north)/height, north). -/
def from_bounds (bd : Bounds) (width height : ℤ) : Affine :=
  { a := (bd.right - bd.left) / (width : ℚ)
    b := 0
    c := bd.left
    d := 0
    e := (bd.bottom - bd.top) / (height : ℚ)
    f := bd.top }

/-- The raster source's immutable metadata snapshot (`self.profile`). -/
structure Profile where
  width : ℤ
  height : ℤ
  count : ℤ
  dtype : String
  photometric : String
  transform : Affine
  deriving DecidableEq, Repr

/-- The wrapped raster source (`self.cog`): its identity, EPSG code, native
bounds and profile.  Its `read`/`point` operations are external and are
recorded syntactically in `Arr`. -/
structure COGReader where
  id : ℕ
  epsg : ℕ
  bounds : Bounds
  profile : Profile
  deriving Repr

/-- Environment of value-producing external geometry utilities:
`rasterio.warp.transform_bounds` (reproject a bounding box between two CRS)
and `rio_tiler.mercator.zoom_for_pixelsize` (zoom level for a resolution). -/
structure Geo where
  transform_bounds : ℕ → ℕ → Bounds → Bounds
  zoom_for_pixelsize : ℚ → ℤ

/-- A tile matrix set (`morecantile.TileMatrixSet`): the CRS it is defined
in and the cell bounding box lookup `xy_bounds`. -/
structure TileMatrixSet where
  crs : ℕ
  xy_bounds : ℤ → ℤ → ℤ → Bounds

/-- Python truthiness of an optional integer argument: `None` and `0` are
falsy. -/
def truthy : Option ℤ → Bool
  | none => false
  | some n => n != 0

/-- rasterio's `reproject` defaults to nearest resampling; the warped read
calls it without a `resampling` argument, so this default is what runs. -/
def rasterio_default_resampling : ℤ := 0

/-- `COGReader.read` applies its own default resampling method when the
caller (here `part`) omits the argument. -/
def cog_read_default_resampling : ℤ := 0

/-- The result of a read pipeline, recorded syntactically: every external
array-producing call the tiler makes, with the exact arguments it passes.
`read source bounds shape method` is `self.cog.read(bounds, shape=shape,
resample_method=method)`; `reproject` is `rasterio.warp.reproject` with a
destination of shape (dest_count, dest_d1, dest_d2); `astype` is
`numpy.ndarray.astype`. -/
inductive Arr where
  | read (source : ℕ) (bounds : Bounds) (shape : Option ℤ × Option ℤ)
      (resample_method : ℤ)
  | reproject (src : Arr) (dest_count dest_d1 dest_d2 : ℤ)
      (src_transform dst_transform : Affine) (src_crs dst_crs : ℕ)
      (resampling : ℤ)
  | astype (src : Arr) (dtype : String)
  deriving DecidableEq, Repr

/-- Shape of a result array, interpreting the external collaborators by
their contracts: a windowed read returns the requested output shape with
the source's band count (`count_of` gives the band count of each source);
`reproject` returns its destination's shape; `astype` preserves shape.
A read whose requested shape contains `None` has no defined shape. -/
def Arr.shape (count_of : ℕ → ℤ) : Arr → Option (ℤ × ℤ × ℤ)
  | Arr.read source _ (some w, some h) _ => some (count_of source, w, h)
  | Arr.read _ _ _ _ => none
  | Arr.reproject _ c d1 d2 _ _ _ _ _ => some (c, d1, d2)
  | Arr.astype a _ => Arr.shape count_of a

/-- The summary returned by `COGTiler.info` (dataclass `COGInfo`). -/
structure COGInfo where
  min_zoom : ℤ
  max_zoom : ℤ
  bounds : Bounds
  dtype : String
  color_interp : String
  deriving DecidableEq, Repr

/-- A Python runtime error surfaced by a tiler operation. -/
inductive PyErr where
  | nameError (name : String)
  | srcError (msg : String)
  deriving DecidableEq, Repr

/-- The single-source tiler (`COGTiler`); `__post_init__` copies
`self.profile = self.cog.profile`. -/
structure COGTiler where
  cog : COGReader
  deriving Repr

/-- `self.profile`, set from the wrapped reader in `__post_init__`. -/
def COGTiler.profile (c : COGTiler) : Profile := c.cog.profile

/-- Embedding of `COGTiler._warped_read` (tiler.py lines 95-117):
`src_transform` is built from the requested bounds, the bounds are
reprojected into the source CRS, `dst_transform` is built from the
reprojected bounds, the source is read at the reprojected bounds and the
requested shape with the requested resample method, and `reproject` is
called with destination `np.empty((count, width, height))`,
`src_transform=dst_transform`, `dst_transform=src_transform` and no
`resampling` argument (so rasterio's default), then cast to the native
dtype. -/
def COGTiler.warped_read (c : COGTiler) (geo : Geo) (bounds : Bounds)
    (width height : ℤ) (bounds_crs : ℕ) (resample_method : ℤ) : Arr :=
  let src_transform := from_bounds bounds width height
  let bounds2 := geo.transform_bounds bounds_crs c.cog.epsg bounds
  let dst_transform := from_bounds bounds2 width height
  let arr := Arr.read c.cog.id bounds2 (some width, some height)
    resample_method
  Arr.astype
    (Arr.reproject arr c.profile.count width height dst_transform
      src_transform c.cog.epsg bounds_crs rasterio_default_resampling)
    c.profile.dtype

/-- Embedding of `COGTiler.tile` (tiler.py lines 119-143). -/
def COGTiler.tile (c : COGTiler) (geo : Geo) (x y z : ℤ) (tile_size : ℤ)
    (tms : TileMatrixSet) (resample_method : ℤ) : Arr :=
  let tile_bounds := tms.xy_bounds x y z
  let width := tile_size
  let height := tile_size
  if c.cog.epsg ≠ tms.crs then
    c.warped_read geo tile_bounds width height tms.crs resample_method
  else
    Arr.read c.cog.id tile_bounds (some width, some height) resample_method

/-- Embedding of `COGTiler.part` (tiler.py lines 159-174): reproject the
bounds when the CRS differ; when either of width/height is falsy recompute
both as `ceil((bounds[2]-bounds[0])/transform.a)` and
`ceil((bounds[3]-bounds[1]) / -transform.e)`; read at that shape, with no
explicit resample method. -/
def COGTiler.part (c : COGTiler) (geo : Geo) (bounds : Bounds)
    (bounds_crs : ℕ) (width height : Option ℤ) : Arr :=
  let bounds1 :=
    if bounds_crs ≠ c.cog.epsg then
      geo.transform_bounds bounds_crs c.cog.epsg bounds
    else bounds
  let wh : Option ℤ × Option ℤ :=
    if !truthy height || !truthy width then
      (some ⌈(bounds1.right - bounds1.left) / c.profile.transform.a⌉,
       some ⌈(bounds1.top - bounds1.bottom) / (-c.profile.transform.e)⌉)
    else (width, height)
  Arr.read c.cog.id bounds1 wh cog_read_default_resampling

/-- Embedding of `COGTiler.preview` (tiler.py lines 176-199): when both
width and height are falsy, use the native size if `max(height, width) <
max_size`, otherwise scale the longer dimension to `max_size` and derive
the other by ceiling from the ratio `height / width`; read the full native
bounds at the resulting shape (width slot first, as in the source). -/
def COGTiler.preview (c : COGTiler) (width height : Option ℤ)
    (max_size : ℤ) (resample_method : ℤ) : Arr :=
  let wh : Option ℤ × Option ℤ :=
    if !truthy height && !truthy width then
      if max c.profile.height c.profile.width < max_size then
        (some c.profile.width, some c.profile.height)
      else
        let ratio : ℚ := (c.profile.height : ℚ) / (c.profile.width : ℚ)
        if ratio > 1 then
          (some ⌈(max_size : ℚ) / ratio⌉, some max_size)
        else
          (some max_size, some ⌈(max_size : ℚ) * ratio⌉)
    else (width, height)
  Arr.read c.cog.id c.cog.bounds wh resample_method

/-- Embedding of `COGTiler.info` (tiler.py lines 201-221). -/
def COGTiler.info (c : COGTiler) (geo : Geo) : COGInfo :=
  let wgs84_bounds := geo.transform_bounds c.cog.epsg 4326 c.cog.bounds
  let mercator_resolution :=
    max c.profile.transform.a |c.profile.transform.e|
  let max_zoom := geo.zoom_for_pixelsize mercator_resolution
  let min_zoom := geo.zoom_for_pixelsize
    (mercator_resolution * ((max c.profile.width c.profile.height : ℤ) : ℚ)
      / 256)
  { min_zoom := min_zoom
    max_zoom := max_zoom
    bounds := wgs84_bounds
    dtype := c.profile.dtype
    color_interp := c.profile.photometric }

/-- The warped read as the claim describes it: identical pipeline, but with
the resample step (`reproject`) performed with the REQUESTED resampling
method.  Written from the claim's words, for comparison with the source
embedding `COGTiler.warped_read`. -/
def warpedReadClaim (c : COGTiler) (geo : Geo) (bounds : Bounds)
    (width height : ℤ) (bounds_crs : ℕ) (resample_method : ℤ) : Arr :=
  let dst_transform := from_bounds bounds width height
  let bounds2 := geo.transform_bounds bounds_crs c.cog.epsg bounds
  let src_transform := from_bounds bounds2 width height
  Arr.astype
    (Arr.reproject
      (Arr.read c.cog.id bounds2 (some width, some height) resample_method)
      c.profile.count width height src_transform dst_transform c.cog.epsg
      bounds_crs resample_method)
    c.profile.dtype

/-- The warped read as the amended claim describes it: destination
transform from the requested bounds, source transform from the reprojected
bounds, windowed read of the reprojected bounds at the requested shape
with the requested resample method, resample from the source grid onto the
destination grid with the library's DEFAULT resampling, cast to native
dtype. -/
def warpedReadAmended (c : COGTiler) (geo : Geo) (bounds : Bounds)
    (width height : ℤ) (bounds_crs : ℕ) (resample_method : ℤ) : Arr :=
  let dst_transform := from_bounds bounds width height
  let bounds2 := geo.transform_bounds bounds_crs c.cog.epsg bounds
  let src_transform := from_bounds bounds2 width height
  Arr.astype
    (Arr.reproject
      (Arr.read c.cog.id bounds2 (some width, some height) resample_method)
      c.profile.count width height src_transform dst_transform c.cog.epsg
      bounds_crs rasterio_default_resampling)
    c.profile.dtype

/-- Fan-in of `asyncio.gather` over already-dispatched branches: results in
input order; if a branch fails the aggregate fails with that branch's
error and no result list is produced. -/
def gather {ε α : Type} : List (Except ε α) → Except ε (List α)
  | [] => Except.ok []
  | x :: xs =>
    match x with
    | Except.error e => Except.error e
    | Except.ok a =>
      match gather xs with
      | Except.error e => Except.error e
      | Except.ok l => Except.ok (a :: l)

/-- The composite tiler (`CompositeTiler`): an ordered list of wrapped
single-source tilers. -/
structure CompositeTiler where
  readers : List COGTiler

/-- Embedding of `CompositeTiler.apply` (tiler.py lines 229-231):
dispatch `func` against every reader and gather in input order. -/
def CompositeTiler.apply {ε α : Type} (c : CompositeTiler)
    (func : COGTiler → Except ε α) : Except ε (List α) :=
  gather (c.readers.map func)

/-- `CompositeTiler.tile`: `apply` with the single-source tile bound to the
fixed arguments.  Single-source operations are pure in this model, so each
branch succeeds. -/
def CompositeTiler.tile (c : CompositeTiler) (geo : Geo) (x y z : ℤ)
    (tile_size : ℤ) (tms : TileMatrixSet) (resample_method : ℤ) :
    Except PyErr (List Arr) :=
  c.apply (fun r => Except.ok (r.tile geo x y z tile_size tms
    resample_method))

/-- `CompositeTiler.part`: `apply` with the single-source part bound to the
fixed arguments. -/
def CompositeTiler.part (c : CompositeTiler) (geo : Geo) (bounds : Bounds)
    (bounds_crs : ℕ) (width height : Option ℤ) : Except PyErr (List Arr) :=
  c.apply (fun r => Except.ok (r.part geo bounds bounds_crs width height))

/-- `CompositeTiler.preview`: `apply` with the single-source preview bound
to the fixed arguments. -/
def CompositeTiler.preview (c : CompositeTiler) (width height : Option ℤ)
    (max_size : ℤ) (resample_method : ℤ) : Except PyErr (List Arr) :=
  c.apply (fun r => Except.ok (r.preview width height max_size
    resample_method))

/-- Embedding of `CompositeTiler.info` (tiler.py lines 268-271).  The
source passes `lambda f: r.info()`: the lambda's parameter is `f` but its
body reads the name `r`, which is bound nowhere (not a parameter, not a
module global), so invoking the lambda raises `NameError: name 'r' is not
defined` for every reader before any per-tiler info runs. -/
def CompositeTiler.info (c : CompositeTiler) :
    Except PyErr (List COGInfo) :=
  c.apply (fun _f => Except.error (PyErr.nameError "r"))

/-- Loop of the modelled `zoom_for_pixelsize`: starting at level `z` with
the given fuel, return `max 0 (z - 1)` at the first level whose
web-mercator per-pixel size is finer than the given pixel size, else the
deepest level. -/
def zfpAux (pixel_size : ℚ) : ℕ → ℕ → ℤ
  | _, 0 => 23
  | z, fuel + 1 =>
    if 40075016686 / 1000 / (256 * 2 ^ z) < pixel_size then
      max 0 ((z : ℤ) - 1)
    else zfpAux pixel_size (z + 1) fuel

/-- Modelled from the external `rio_tiler.mercator.zoom_for_pixelsize`:
walk zoom levels 0..23 of the web-mercator pyramid and return one less
than the first level whose per-pixel size is finer than the given pixel
size (clamped at 0), or 23.  The web-mercator circumference 2*pi*6378137
is taken as the rational 40075016686/1000. -/
def zfpModel (pixel_size : ℚ) : ℤ := zfpAux pixel_size 0 24

/-- Sample bounding box. -/
def boundsA : Bounds := { left := 0, bottom := 0, right := 3, top := 2 }

/-- Sample profile: a 512 x 256, 3-band, uint8 raster at unit resolution. -/
def profileA : Profile :=
  { width := 512, height := 256, count := 3, dtype := "uint8"
    photometric := "rgb"
    transform := { a := 1, b := 0, c := 0, d := 0, e := -1, f := 2 } }

/-- Sample reader in EPSG 3857. -/
def cogA : COGReader :=
  { id := 7, epsg := 3857, bounds := boundsA, profile := profileA }

/-- Second sample reader (distinct identity). -/
def cogB : COGReader :=
  { id := 8, epsg := 3857, bounds := boundsA, profile := profileA }

/-- Sample single-source tilers. -/
def tilerA : COGTiler := { cog := cogA }

/-- Second sample tiler. -/
def tilerB : COGTiler := { cog := cogB }

/-- Sample geometry environment: identity bounds reprojection, constant
zoom function. -/
def geoA : Geo :=
  { transform_bounds := fun _ _ bd => bd, zoom_for_pixelsize := fun _ => 5 }

/-- Geometry environment with the modelled rio_tiler zoom function. -/
def geoM : Geo :=
  { transform_bounds := fun _ _ bd => bd, zoom_for_pixelsize := zfpModel }

/-- A tile matrix set whose CRS matches `tilerA`'s source. -/
def tmsEq : TileMatrixSet := { crs := 3857, xy_bounds := fun _ _ _ => boundsA }

/-- A tile matrix set whose CRS differs from `tilerA`'s source. -/
def tmsNe : TileMatrixSet := { crs := 4326, xy_bounds := fun _ _ _ => boundsA }

/-- A degenerate but valid 1 x 1 pixel source at 200 km resolution. -/
def profileTiny : Profile :=
  { width := 1, height := 1, count := 1, dtype := "uint8"
    photometric := "minisblack"
    transform := { a := 200000, b := 0, c := 0, d := 0, e := -200000, f := 0 } }

/-- Reader wrapping the 1 x 1 source. -/
def cogTiny : COGReader :=
  { id := 9, epsg := 3857
    bounds := { left := 0, bottom := 0, right := 200000, top := 200000 }
    profile := profileTiny }

/-- Tiler over the 1 x 1 source. -/
def tilerTiny : COGTiler := { cog := cogTiny }

/-- Arithmetic helper: the ceiling of `ms * d1 / d2` is at most `ms` when
`0 ≤ ms` and `0 < d2` and `d1 ≤ d2`. -/
theorem ceil_scaled_le (ms d1 d2 : ℤ) (hms : 0 ≤ ms) (h2 : 0 < d2)
    (hle : d1 ≤ d2) : ⌈(ms : ℚ) * d1 / d2⌉ ≤ ms := by
  rw [Int.ceil_le]
  rw [div_le_iff₀ (by exact_mod_cast h2)]
  exact mul_le_mul_of_nonneg_left (by exact_mod_cast hle)
    (by exact_mod_cast hms)

/-- Arithmetic helper: `⌈ms * d1 / d2⌉ * d2` overshoots `ms * d1` by less
than `d2` (and never undershoots). -/
theorem ceil_scaled_sandwich (ms d1 d2 : ℤ) (h2 : 0 < d2) :
    0 ≤ ⌈(ms : ℚ) * d1 / d2⌉ * d2 - ms * d1 ∧
      ⌈(ms : ℚ) * d1 / d2⌉ * d2 - ms * d1 < d2 := by
  have h2q : (0 : ℚ) < (d2 : ℚ) := by exact_mod_cast h2
  have hq : ((ms : ℚ) * d1 / d2) * d2 = (ms : ℚ) * d1 :=
    div_mul_cancel₀ _ (ne_of_gt h2q)
  have hl : (ms : ℚ) * d1 / d2 ≤ ((⌈(ms : ℚ) * d1 / d2⌉ : ℤ) : ℚ) :=
    Int.le_ceil _
  have hu : ((⌈(ms : ℚ) * d1 / d2⌉ : ℤ) : ℚ) < (ms : ℚ) * d1 / d2 + 1 :=
    Int.ceil_lt_add_one _
  constructor
  · have h : (ms : ℚ) * d1 ≤ ((⌈(ms : ℚ) * d1 / d2⌉ : ℤ) : ℚ) * d2 := by
      calc (ms : ℚ) * d1 = ((ms : ℚ) * d1 / d2) * d2 := hq.symm
        _ ≤ ((⌈(ms : ℚ) * d1 / d2⌉ : ℤ) : ℚ) * d2 :=
          mul_le_mul_of_nonneg_right hl (le_of_lt h2q)
    have h' : (0 : ℚ) ≤ ((⌈(ms : ℚ) * d1 / d2⌉ : ℤ) : ℚ) * d2 -
        (ms : ℚ) * d1 := by linarith
    exact_mod_cast h'
  · have h : ((⌈(ms : ℚ) * d1 / d2⌉ : ℤ) : ℚ) * d2 < (ms : ℚ) * d1 + d2 := by
      have hm := mul_lt_mul_of_pos_right hu h2q
      rw [add_mul, one_mul, hq] at hm
      exact hm
    have h' : ((⌈(ms : ℚ) * d1 / d2⌉ : ℤ) : ℚ) * d2 - (ms : ℚ) * d1 <
        (d2 : ℚ) := by linarith
    exact_mod_cast h'

/-- Fan-in helper: when every branch succeeds, `gather` returns the mapped
results in input order. -/
theorem gather_map_ok {ε α β : Type} (l : List β) (func : β → Except ε α)
    (g : β → α) (h : ∀ r ∈ l, func r = Except.ok (g r)) :
    gather (l.map func) = Except.ok (l.map g) := by
  induction l with
  | nil => rfl
  | cons a t ih =>
    have ha := h a (List.mem_cons_self a t)
    have ht := ih (fun r hr => h r (List.mem_cons_of_mem a hr))
    simp [gather, ha, ht]

/-- Fan-in helper: when the branch at position `i` fails with `e` and every
other branch succeeds, `gather` fails with `e`. -/
theorem gather_error_at {ε α β : Type} (l : List β) (func : β → Except ε α)
    (e : ε) :
    ∀ (i : ℕ) (hi : i < l.length),
      func (l.get ⟨i, hi⟩) = Except.error e →
      (∀ (j : ℕ) (hj : j < l.length), j ≠ i →
        ∃ a, func (l.get ⟨j, hj⟩) = Except.ok a) →
      gather (l.map func) = Except.error e := by
  induction l with
  | nil => intro i hi _ _; exact absurd hi (Nat.not_lt_zero i)
  | cons a t ih =>
    intro i hi herr hok
    cases i with
    | zero =>
      have ha : func a = Except.error e := herr
      rw [List.map_cons, ha]
      rfl
    | succ i' =>
      have hlen : (a :: t).length = t.length + 1 := rfl
      obtain ⟨a0, ha0⟩ := hok 0 (Nat.succ_pos _) (by omega)
      have hi' : i' < t.length := by
        simpa [Nat.succ_lt_succ_iff] using hi
      have herr' : func (t.get ⟨i', hi'⟩) = Except.error e := by
        simpa using herr
      have hok' : ∀ (j : ℕ) (hj : j < t.length), j ≠ i' →
          ∃ b, func (t.get ⟨j, hj⟩) = Except.ok b := by
        intro j hj hne
        have hh := hok (j + 1) (by omega) (by omega)
        simpa using hh
      have ht := ih i' hi' herr' hok'
      have ha : func a = Except.ok a0 := ha0
      simp [gather, ha, ht]

/-- C1: the claim says composite `info()` returns the ordered list of the
per-tiler `info()` summaries.  The code instead passes `lambda f: r.info()`
to `apply`; `r` is unbound, so invoking `info()` on any composite with at
least one wrapped tiler raises `NameError: name 'r' is not defined`.  This
theorem evaluates the embedded code at such a failing input. -/
theorem c1_composite_info_raises :
    (CompositeTiler.mk [tilerA]).info =
      Except.error (PyErr.nameError "r") := rfl

/-- C2: for every tile request, when the source CRS equals the scheme CRS
the tile is a direct windowed read of the scheme's cell bounding box at
shape (tile_size, tile_size) with the requested resample method; otherwise
it is the warped read of that bounding box. -/
theorem c2_tile_crs_dispatch (c : COGTiler) (geo : Geo)
    (tms : TileMatrixSet) (x y z tile_size resample_method : ℤ) :
    (c.cog.epsg = tms.crs →
      c.tile geo x y z tile_size tms resample_method =
        Arr.read c.cog.id (tms.xy_bounds x y z)
          (some tile_size, some tile_size) resample_method) ∧
    (c.cog.epsg ≠ tms.crs →
      c.tile geo x y z tile_size tms resample_method =
        c.warped_read geo (tms.xy_bounds x y z) tile_size tile_size
          tms.crs resample_method) := by
  constructor
  · intro h
    simp [COGTiler.tile, h]
  · intro h
    simp [COGTiler.tile, h]

/-- Witness for C2 at concrete inputs: an equal-CRS tiler takes the direct
read and a differing-CRS tiler takes the warped read. -/
theorem c2_witness :
    tilerA.tile geoA 0 0 0 256 tmsEq 0 =
      Arr.read 7 boundsA (some 256, some 256) 0 ∧
    tilerA.tile geoA 0 0 0 256 tmsNe 0 =
      tilerA.warped_read geoA boundsA 256 256 4326 0 := by
  constructor
  · exact (c2_tile_crs_dispatch tilerA geoA tmsEq 0 0 0 256 0).1 rfl
  · exact (c2_tile_crs_dispatch tilerA geoA tmsNe 0 0 0 256 0).2 (by decide)

/-- C3 (amended): the warped read builds the destination transform from the
requested bounds and shape, reprojects the bounds into the source CRS,
builds the source transform from the reprojected bounds and the same
shape, reads the reprojected bounds at that shape with the requested
resample method, resamples from the source grid onto the destination grid
with the library's DEFAULT resampling (the requested method is not passed
to the resample step), and casts to the source's native dtype. -/
theorem c3_warped_read_description (c : COGTiler) (geo : Geo)
    (bounds : Bounds) (width height : ℤ) (bounds_crs : ℕ)
    (resample_method : ℤ) :
    c.warped_read geo bounds width height bounds_crs resample_method =
      warpedReadAmended c geo bounds width height bounds_crs
        resample_method := rfl

/-- Counterexample to C3 as stated: with a non-default requested resampling
method (2), the code's warped read is not the claim's pipeline, because
the resample step runs with the default method instead of the requested
one. -/
theorem c3_counterexample :
    tilerA.warped_read geoA boundsA 4 4 4326 2 ≠
      warpedReadClaim tilerA geoA boundsA 4 4 4326 2 := by
  simp [COGTiler.warped_read, warpedReadClaim, rasterio_default_resampling]

/-- C4 (amended): for every source whose longer native dimension is at
least 256 pixels, `info()` satisfies min_zoom ≤ max_zoom, provided the
zoom-for-pixel-size utility is antitone in pixel size; and the geographic
bounds are valid whenever the bounds reprojection utility returns ordered
bounds. -/
theorem c4_info_zoom_and_bounds (c : COGTiler) (geo : Geo)
    (hmono : ∀ p q : ℚ, p ≤ q →
      geo.zoom_for_pixelsize q ≤ geo.zoom_for_pixelsize p)
    (hsize : (256 : ℤ) ≤ max c.profile.width c.profile.height)
    (hbv : (geo.transform_bounds c.cog.epsg 4326 c.cog.bounds).valid) :
    (c.info geo).min_zoom ≤ (c.info geo).max_zoom ∧
      (c.info geo).bounds.valid := by
  refine ⟨?_, hbv⟩
  have h0 : (0 : ℚ) ≤ max c.profile.transform.a |c.profile.transform.e| :=
    le_trans (abs_nonneg _) (le_max_right _ _)
  have h256 : (256 : ℚ) ≤
      ((max c.profile.width c.profile.height : ℤ) : ℚ) := by
    exact_mod_cast hsize
  have hle : max c.profile.transform.a |c.profile.transform.e| ≤
      max c.profile.transform.a |c.profile.transform.e| *
        ((max c.profile.width c.profile.height : ℤ) : ℚ) / 256 := by
    rw [le_div_iff₀ (by norm_num : (0 : ℚ) < 256)]
    exact mul_le_mul_of_nonneg_left h256 h0
  exact hmono _ _ hle

/-- Witness for C4's amended theorem at a concrete 512 x 256 source with an
antitone (constant) zoom function and identity bounds reprojection. -/
theorem c4_witness :
    (tilerA.info geoA).min_zoom ≤ (tilerA.info geoA).max_zoom ∧
      (tilerA.info geoA).bounds.valid :=
  c4_info_zoom_and_bounds tilerA geoA (fun _ _ _ => le_refl 5) (by decide)
    (by decide)

/-- Counterexample to C4 as stated: a valid 1 x 1 pixel source (longer
dimension below 256) under the modelled rio_tiler zoom function yields
min_zoom = 7 > max_zoom = 0, so "for every source, min_zoom ≤ max_zoom"
fails. -/
theorem c4_counterexample :
    ¬ ((tilerTiny.info geoM).min_zoom ≤ (tilerTiny.info geoM).max_zoom ∧
      (tilerTiny.info geoM).bounds.valid) := by
  intro h
  have h1 := h.1
  norm_num [COGTiler.info, COGTiler.profile, tilerTiny, cogTiny,
    profileTiny, geoM, zfpModel, zfpAux] at h1

/-- C5: preview() with neither width nor height supplied uses the native
size unchanged when both native dimensions are below max_size; otherwise
it sets the longer native dimension to max_size and derives the other by
ceiling from the native aspect ratio; the resulting shape never exceeds
max_size on the longer side and preserves the native aspect ratio within
one pixel (|W * height - H * width| is less than one pixel's worth:
max width height). -/
theorem c5_preview_default_shape (c : COGTiler)
    (max_size resample_method : ℤ) (hw : 0 < c.profile.width)
    (hh : 0 < c.profile.height) (hms : 0 < max_size) :
    ∃ W H : ℤ,
      c.preview none none max_size resample_method =
        Arr.read c.cog.id c.cog.bounds (some W, some H) resample_method ∧
      (max c.profile.height c.profile.width < max_size →
        W = c.profile.width ∧ H = c.profile.height) ∧
      (max_size ≤ max c.profile.height c.profile.width →
        (c.profile.width < c.profile.height →
          H = max_size ∧
          W = ⌈(max_size : ℚ) * c.profile.width / c.profile.height⌉) ∧
        (c.profile.height ≤ c.profile.width →
          W = max_size ∧
          H = ⌈(max_size : ℚ) * c.profile.height / c.profile.width⌉)) ∧
      max W H ≤ max_size ∧
      |W * c.profile.height - H * c.profile.width| <
        max c.profile.width c.profile.height := by
  by_cases hlt : max c.profile.height c.profile.width < max_size
  · refine ⟨c.profile.width, c.profile.height, ?_, fun _ => ⟨rfl, rfl⟩,
      fun hge => absurd hlt (not_lt.mpr hge), ?_, ?_⟩
    · simp [COGTiler.preview, truthy, hlt]
    · omega
    · have hz : c.profile.width * c.profile.height -
          c.profile.height * c.profile.width = 0 := by ring
      rw [hz, abs_zero]
      omega
  · push_neg at hlt
    by_cases hr : c.profile.width < c.profile.height
    · have hwq : (0 : ℚ) < (c.profile.width : ℚ) := by exact_mod_cast hw
      have hratio : (1 : ℚ) <
          (c.profile.height : ℚ) / (c.profile.width : ℚ) := by
        rw [lt_div_iff₀ hwq, one_mul]
        exact_mod_cast hr
      have hceil : ⌈(max_size : ℚ) /
            ((c.profile.height : ℚ) / (c.profile.width : ℚ))⌉ =
          ⌈(max_size : ℚ) * (c.profile.width : ℚ) /
            (c.profile.height : ℚ)⌉ := by
        rw [div_div_eq_mul_div]
      refine ⟨⌈(max_size : ℚ) * c.profile.width / c.profile.height⌉,
        max_size, ?_, fun h => absurd h (not_lt.mpr hlt),
        fun _ => ⟨fun _ => ⟨rfl, rfl⟩,
          fun hle => absurd hr (not_lt.mpr hle)⟩, ?_, ?_⟩
      · simp [COGTiler.preview, truthy, not_lt.mpr hlt, hratio, hceil]
      · have hWle :
            ⌈(max_size : ℚ) * c.profile.width / c.profile.height⌉ ≤
              max_size :=
          ceil_scaled_le _ _ _ (le_of_lt hms) hh (le_of_lt hr)
        omega
      · obtain ⟨h1, h2⟩ := ceil_scaled_sandwich max_size c.profile.width
          c.profile.height hh
        rw [abs_of_nonneg h1]
        exact lt_of_lt_of_le h2 (le_max_right _ _)
    · push_neg at hr
      have hwq : (0 : ℚ) < (c.profile.width : ℚ) := by exact_mod_cast hw
      have hratio : ¬ ((1 : ℚ) <
          (c.profile.height : ℚ) / (c.profile.width : ℚ)) := by
        rw [not_lt, div_le_one hwq]
        exact_mod_cast hr
      have hceil : ⌈(max_size : ℚ) *
            ((c.profile.height : ℚ) / (c.profile.width : ℚ))⌉ =
          ⌈(max_size : ℚ) * (c.profile.height : ℚ) /
            (c.profile.width : ℚ)⌉ := by
        rw [mul_div_assoc]
      refine ⟨max_size,
        ⌈(max_size : ℚ) * c.profile.height / c.profile.width⌉, ?_,
        fun h => absurd h (not_lt.mpr hlt),
        fun _ => ⟨fun hlt' => absurd hlt' (not_lt.mpr hr),
          fun _ => ⟨rfl, rfl⟩⟩, ?_, ?_⟩
      · simp [COGTiler.preview, truthy, not_lt.mpr hlt, hratio, hceil]
      · have hHle :
            ⌈(max_size : ℚ) * c.profile.height / c.profile.width⌉ ≤
              max_size :=
          ceil_scaled_le _ _ _ (le_of_lt hms) hw hr
        omega
      · obtain ⟨h1, h2⟩ := ceil_scaled_sandwich max_size c.profile.height
          c.profile.width hw
        have hneg : max_size * c.profile.height -
            ⌈(max_size : ℚ) * c.profile.height / c.profile.width⌉ *
              c.profile.width =
            -(⌈(max_size : ℚ) * c.profile.height / c.profile.width⌉ *
              c.profile.width - max_size * c.profile.height) := by ring
        rw [hneg, abs_neg, abs_of_nonneg h1]
        exact lt_of_lt_of_le h2 (le_max_left _ _)

/-- Witness for C5 at a concrete 512 x 256 source with max_size 100: the
scaled branch applies, with shape (100, 50). -/
theorem c5_witness :
    ∃ W H : ℤ,
      tilerA.preview none none 100 0 =
        Arr.read tilerA.cog.id tilerA.cog.bounds (some W, some H) 0 ∧
      (max tilerA.profile.height tilerA.profile.width < 100 →
        W = tilerA.profile.width ∧ H = tilerA.profile.height) ∧
      (100 ≤ max tilerA.profile.height tilerA.profile.width →
        (tilerA.profile.width < tilerA.profile.height →
          H = 100 ∧
          W = ⌈(100 : ℚ) * tilerA.profile.width / tilerA.profile.height⌉) ∧
        (tilerA.profile.height ≤ tilerA.profile.width →
          W = 100 ∧
          H = ⌈(100 : ℚ) * tilerA.profile.height / tilerA.profile.width⌉)) ∧
      max W H ≤ 100 ∧
      |W * tilerA.profile.height - H * tilerA.profile.width| <
        max tilerA.profile.width tilerA.profile.height :=
  c5_preview_default_shape tilerA 100 0 (by decide) (by decide) (by decide)

/-- C6: part() without width and height reads the (reprojected) bounds at
shape (ceil((max_x - min_x) / x_pixel_size),
ceil((max_y - min_y) / |y_pixel_size|)) for a north-up source (negative y
pixel size component). -/
theorem c6_part_default_shape (c : COGTiler) (geo : Geo) (bounds : Bounds)
    (bounds_crs : ℕ) (he : c.profile.transform.e < 0) :
    c.part geo bounds bounds_crs none none =
      let b1 := if bounds_crs ≠ c.cog.epsg then
        geo.transform_bounds bounds_crs c.cog.epsg bounds else bounds
      Arr.read c.cog.id b1
        (some ⌈(b1.right - b1.left) / c.profile.transform.a⌉,
         some ⌈(b1.top - b1.bottom) / |c.profile.transform.e|⌉)
        cog_read_default_resampling := by
  have habs : |c.profile.transform.e| = -c.profile.transform.e :=
    abs_of_neg he
  simp [COGTiler.part, truthy, habs]

/-- Witness for C6 at concrete inputs: unit pixel size, bounds 3 wide and
2 tall give shape (3, 2). -/
theorem c6_witness :
    tilerA.part geoA boundsA 3857 none none =
      Arr.read 7 boundsA (some 3, some 2) 0 := by
  have h := c6_part_default_shape tilerA geoA boundsA 3857
    (by norm_num [COGTiler.profile, tilerA, cogA, profileA])
  rw [h]
  norm_num [tilerA, cogA, boundsA, profileA, COGTiler.profile,
    cog_read_default_resampling]

/-- C7: for every tile request, whichever CRS branch is taken, the result
array's shape is (bands, tile_size, tile_size) where bands is the band
count of the wrapped source's profile (interpreting the external read and
reproject by their contracts via `Arr.shape`). -/
theorem c7_tile_shape (c : COGTiler) (geo : Geo) (tms : TileMatrixSet)
    (x y z tile_size resample_method : ℤ) (count_of : ℕ → ℤ)
    (hcount : count_of c.cog.id = c.profile.count) :
    Arr.shape count_of (c.tile geo x y z tile_size tms resample_method) =
      some (c.profile.count, tile_size, tile_size) := by
  by_cases hcrs : c.cog.epsg ≠ tms.crs
  · simp [COGTiler.tile, hcrs, COGTiler.warped_read, Arr.shape]
  · simp [COGTiler.tile, hcrs, Arr.shape, hcount]

/-- Witness for C7 at a concrete 3-band tiler: the tile shape is
(3, 256, 256). -/
theorem c7_witness :
    Arr.shape (fun _ => 3) (tilerA.tile geoA 0 0 0 256 tmsEq 0) =
      some (3, 256, 256) :=
  c7_tile_shape tilerA geoA tmsEq 0 0 0 256 0 (fun _ => 3) rfl

/-- C8: when every branch succeeds, `apply` returns exactly one result per
wrapped tiler, in input order (element i is the result of wrapped tiler
i); and tile/part/preview are `apply` with the corresponding single-source
operation, likewise returning the per-tiler results in input order. -/
theorem c8_composite_order {ε α : Type} (c : CompositeTiler)
    (func : COGTiler → Except ε α) (g : COGTiler → α)
    (hok : ∀ r ∈ c.readers, func r = Except.ok (g r)) (geo : Geo)
    (tms : TileMatrixSet) (x y z tile_size resample_method max_size : ℤ)
    (bounds : Bounds) (bounds_crs : ℕ) (width height : Option ℤ) :
    c.apply func = Except.ok (c.readers.map g) ∧
    (c.readers.map g).length = c.readers.length ∧
    (∀ i : ℕ, (c.readers.map g)[i]? = c.readers[i]?.map g) ∧
    c.tile geo x y z tile_size tms resample_method =
      Except.ok (c.readers.map
        (fun r => r.tile geo x y z tile_size tms resample_method)) ∧
    c.part geo bounds bounds_crs width height =
      Except.ok (c.readers.map
        (fun r => r.part geo bounds bounds_crs width height)) ∧
    c.preview width height max_size resample_method =
      Except.ok (c.readers.map
        (fun r => r.preview width height max_size resample_method)) := by
  refine ⟨gather_map_ok _ _ _ hok, List.length_map _ _, fun i => ?_,
    gather_map_ok _ _ _ (fun r _ => rfl),
    gather_map_ok _ _ _ (fun r _ => rfl),
    gather_map_ok _ _ _ (fun r _ => rfl)⟩
  exact List.getElem?_map g c.readers i

/-- Witness for C8 at a concrete two-tiler composite: `apply` on a
succeeding operation returns both results in order, and composite tile
returns the two per-tiler tiles in order. -/
theorem c8_witness :
    (CompositeTiler.mk [tilerA, tilerB]).apply
        (fun r => (Except.ok r.profile.count : Except PyErr ℤ)) =
      Except.ok [3, 3] ∧
    (CompositeTiler.mk [tilerA, tilerB]).tile geoA 0 0 0 256 tmsEq 0 =
      Except.ok [tilerA.tile geoA 0 0 0 256 tmsEq 0,
        tilerB.tile geoA 0 0 0 256 tmsEq 0] := by
  have h := c8_composite_order (CompositeTiler.mk [tilerA, tilerB])
    (fun r => (Except.ok r.profile.count : Except PyErr ℤ))
    (fun r => r.profile.count) (fun r _ => rfl) geoA tmsEq 0 0 0 256 0 1024
    boundsA 3857 none none
  exact ⟨h.1, h.2.2.2.1⟩

/-- C9: when the operation fails on the wrapped tiler at position i with
error e and succeeds on every other wrapped tiler, the whole `apply` call
fails with that error, and no result list (in particular no partial list
of sibling results) is returned. -/
theorem c9_composite_error {ε α : Type} (c : CompositeTiler)
    (func : COGTiler → Except ε α) (i : ℕ) (hi : i < c.readers.length)
    (e : ε) (herr : func (c.readers.get ⟨i, hi⟩) = Except.error e)
    (hok : ∀ (j : ℕ) (hj : j < c.readers.length), j ≠ i →
      ∃ a, func (c.readers.get ⟨j, hj⟩) = Except.ok a) :
    c.apply func = Except.error e ∧
      ∀ l : List α, c.apply func ≠ Except.ok l := by
  have h : c.apply func = Except.error e :=
    gather_error_at c.readers func e i hi herr hok
  refine ⟨h, fun l hl => ?_⟩
  rw [h] at hl
  exact Except.noConfusion hl

/-- Witness for C9 at a concrete two-tiler composite whose first branch
fails: `apply` surfaces that branch's error. -/
theorem c9_witness :
    (CompositeTiler.mk [tilerA, tilerB]).apply
        (fun r => if r.cog.id = 7 then Except.error (PyErr.srcError "boom")
          else (Except.ok r.profile.count : Except PyErr ℤ)) =
      Except.error (PyErr.srcError "boom") := by
  have h := c9_composite_error (CompositeTiler.mk [tilerA, tilerB])
    (fun r => if r.cog.id = 7 then Except.error (PyErr.srcError "boom")
      else (Except.ok r.profile.count : Except PyErr ℤ))
    0 (by decide) (PyErr.srcError "boom") rfl ?hok
  · exact h.1
  case hok =>
    intro j hj hne
    have hj2 : j < 2 := hj
    interval_cases j
    · exact absurd rfl hne
    · exact ⟨3, rfl⟩

/-- C10: when exactly one of width and height is supplied to part(), the
supplied value is discarded and both dimensions are recomputed, so the
call equals the call with neither dimension supplied. -/
theorem c10_part_single_dim_discarded (c : COGTiler) (geo : Geo)
    (bounds : Bounds) (bounds_crs : ℕ) (width height : Option ℤ)
    (h : (width.isSome ∧ height = none) ∨
      (width = none ∧ height.isSome)) :
    c.part geo bounds bounds_crs width height =
      c.part geo bounds bounds_crs none none := by
  rcases h with ⟨_, rfl⟩ | ⟨rfl, _⟩
  · simp [COGTiler.part, truthy]
  · simp [COGTiler.part, truthy]

/-- Witness for C10 at a concrete input: supplying only width = 5 yields
the same read as supplying neither dimension. -/
theorem c10_witness :
    tilerA.part geoA boundsA 3857 (some 5) none =
      tilerA.part geoA boundsA 3857 none none :=
  c10_part_single_dim_discarded tilerA geoA boundsA 3857 (some 5) none
    (Or.inl ⟨rfl, rfl⟩)

end Aiocogeo
